import Mathlib

/-!
Shallow embedding of `src/oop_lecture.py` (an OOP teaching file) and proofs of
the specification claims about it.  Python numeric values (amounts, distances,
mileage, battery, balance) are modelled as exact rationals `ℚ`; Python strings
as Lean `String`; Python exceptions as `Except PyError`.
-/

/-- Python exceptions that the embedded code can raise. -/
inductive PyError where
  | valueError
  | nameError
deriving DecidableEq, Repr

/-- Embedding of Python `str.upper()` on the ASCII inputs used by the lecture:
uppercase every character. -/
def py_upper (s : String) : String :=
  String.mk (s.toList.map Char.toUpper)

/- ### Shape / Circle (section 7 of the source, lines 102-125) -/

/-- Runtime instances of the `Shape` family: either a base `Shape` or a
`Circle`; both carry the single attribute `name` set by `__init__`. -/
inductive ShapeObj where
  | shape (name : String)
  | circle (name : String)
deriving DecidableEq, Repr

/-- The class through which a classmethod is invoked (the `cls` argument). -/
inductive ShapeCls where
  | shape
  | circle
deriving DecidableEq, Repr

/-- Embedding of the classmethod `Shape.from_description(cls, desc)`:
`return cls(desc.upper())` — construct an instance of the invoking class `cls`
with name `desc.upper()` (Circle's `__init__` just forwards the name to
`Shape.__init__`). -/
def from_description (cls : ShapeCls) (desc : String) : ShapeObj :=
  match cls with
  | .shape => .shape (py_upper desc)
  | .circle => .circle (py_upper desc)

/-- The `name` attribute of a Shape-family instance. -/
def ShapeObj.name : ShapeObj → String
  | .shape n => n
  | .circle n => n

/-- Whether a Shape-family instance is an instance of the `Circle` subclass. -/
def ShapeObj.isCircleInstance : ShapeObj → Bool
  | .circle _ => true
  | .shape _ => false

/- ### BankAccount (lines 37-47) -/

/-- Embedding of class `BankAccount`; `__balance` is the name-mangled private
balance attribute. -/
structure BankAccount where
  owner : String
  __balance : ℚ
deriving DecidableEq, Repr

/-- Embedding of `BankAccount.deposit(amount)`:
`if amount > 0: self.__balance += amount`. -/
def BankAccount.deposit (a : BankAccount) (amount : ℚ) : BankAccount :=
  if amount > 0 then { a with __balance := a.__balance + amount } else a

/-- Embedding of `BankAccount.get_balance()`: `return self.__balance`. -/
def BankAccount.get_balance (a : BankAccount) : ℚ :=
  a.__balance

/- ### Vehicle hierarchy (lines 175-227) -/

/-- Embedding of class `Vehicle`; `_mileage` is the protected mileage
attribute. -/
structure Vehicle where
  make : String
  model : String
  year : Int
  _mileage : ℚ
deriving DecidableEq, Repr

/-- Embedding of `Vehicle.__init__(make, model, year)`: sets the three public
attributes and `self._mileage = 0`. -/
def Vehicle.init (make model : String) (year : Int) : Vehicle :=
  { make := make, model := model, year := year, _mileage := 0 }

/-- Embedding of `Vehicle.drive(distance)`:
`if distance > 0: self._mileage += distance`. -/
def Vehicle.drive (v : Vehicle) (distance : ℚ) : Vehicle :=
  if distance > 0 then { v with _mileage := v._mileage + distance } else v

/-- Rendering of an integer value inside a Python f-string. -/
def py_show_int (n : Int) : String :=
  toString n

/-- Rendering of a numeric value inside a Python f-string.  Every value the
proofs render is an integer (denominator 1), shown without a decimal point as
Python shows an `int`; a non-integral rational (which in Python would be a
`float`) is shown here in exact fractional form. -/
def py_show_num (q : ℚ) : String :=
  if q.den = 1 then py_show_int q.num
  else py_show_int q.num ++ "/" ++ py_show_int (q.den : Int)

/-- Embedding of `Vehicle.get_info()`:
`return f"{self.year} {self.make} {self.model}, Mileage: {self._mileage}"`. -/
def Vehicle.get_info (v : Vehicle) : String :=
  py_show_int v.year ++ " " ++ v.make ++ " " ++ v.model ++ ", Mileage: "
    ++ py_show_num v._mileage

/-- Embedding of class `Car(Vehicle)` with the extra attribute
`fuel_capacity`. -/
structure Car extends Vehicle where
  fuel_capacity : ℚ
deriving DecidableEq, Repr

/-- Embedding of `Car.__init__(make, model, year, fuel_capacity)`: calls
`super().__init__(make, model, year)` then sets `self.fuel_capacity`. -/
def Car.init (make model : String) (year : Int) (fuel_capacity : ℚ) : Car :=
  { toVehicle := Vehicle.init make model year, fuel_capacity := fuel_capacity }

/-- `Car` does not override `drive`; a call on a Car runs the inherited
`Vehicle.drive` body, which touches only the base attributes. -/
def Car.drive (c : Car) (distance : ℚ) : Car :=
  { c with toVehicle := c.toVehicle.drive distance }

/-- Embedding of `Car.get_info()`:
`return f"{super().get_info()}, Fuel Capacity: {self.fuel_capacity}"`. -/
def Car.get_info (c : Car) : String :=
  c.toVehicle.get_info ++ ", Fuel Capacity: " ++ py_show_num c.fuel_capacity

/-- Embedding of class `ElectricScooter(Vehicle)` with the extra attribute
`battery_percentage`. -/
structure ElectricScooter extends Vehicle where
  battery_percentage : ℚ
deriving DecidableEq, Repr

/-- Embedding of `ElectricScooter.__init__(make, model, year,
battery_percentage)`. -/
def ElectricScooter.init (make model : String) (year : Int)
    (battery_percentage : ℚ) : ElectricScooter :=
  { toVehicle := Vehicle.init make model year
    battery_percentage := battery_percentage }

/-- Embedding of `ElectricScooter.drive(distance)`: `super().drive(distance)`,
then `self.battery_percentage -= distance * 0.1`, then
`if self.battery_percentage < 0: self.battery_percentage = 0`.  The battery
update is NOT guarded by `distance > 0`. -/
def ElectricScooter.drive (e : ElectricScooter) (distance : ℚ) :
    ElectricScooter :=
  let e1 : ElectricScooter := { e with toVehicle := e.toVehicle.drive distance }
  let b := e1.battery_percentage - distance * (1 / 10)
  { e1 with battery_percentage := if b < 0 then 0 else b }

/-- Embedding of `ElectricScooter.get_info()`:
`return f"{super().get_info()}, Battery: {self.battery_percentage}%"`. -/
def ElectricScooter.get_info (e : ElectricScooter) : String :=
  e.toVehicle.get_info ++ ", Battery: " ++ py_show_num e.battery_percentage
    ++ "%"

/-- Embedding of the `@staticmethod is_charging_required()` (source lines
221-223): its body is `return self.battery_percentage < 20`, but a static
method receives no `self` and no `self` is in scope at module level, so every
call raises `NameError` instead of returning a Bool. -/
def ElectricScooter.is_charging_required : Except PyError Bool :=
  .error .nameError

/-- The intended behaviour of `is_charging_required` as documented in the
source requirements (line 166: "returns True if battery < 20%") and the spec:
stated here only to compare against the actual embedded behaviour. -/
def is_charging_required_spec (battery : ℚ) : Bool :=
  decide (battery < 20)

/-- A runtime object of the Vehicle family, carrying its dynamic class: method
calls on it dispatch to the most-derived override. -/
inductive VehicleObj where
  | base (v : Vehicle)
  | car (c : Car)
  | scooter (e : ElectricScooter)
deriving DecidableEq, Repr

/-- Dynamic dispatch of `drive`: `Vehicle` and `Car` run `Vehicle.drive`,
`ElectricScooter` runs its override. -/
def VehicleObj.drive : VehicleObj → ℚ → VehicleObj
  | .base v, d => .base (v.drive d)
  | .car c, d => .car (c.drive d)
  | .scooter e, d => .scooter (e.drive d)

/-- Dynamic dispatch of `get_info`. -/
def VehicleObj.get_info : VehicleObj → String
  | .base v => v.get_info
  | .car c => c.get_info
  | .scooter e => e.get_info

/-- Embedding of `Vehicle.__str__`: `return self.get_info()`.  No subclass
overrides `__str__`, so `str(obj)` on any family member resolves to this body,
whose `self.get_info()` call dispatches on the runtime class. -/
def VehicleObj.str (obj : VehicleObj) : String :=
  obj.get_info

/-- The `_mileage` attribute of a Vehicle-family object. -/
def VehicleObj.mileage : VehicleObj → ℚ
  | .base v => v._mileage
  | .car c => c.toVehicle._mileage
  | .scooter e => e.toVehicle._mileage

/-- Running a sequence of `drive` calls on a Vehicle-family object. -/
def drives (obj : VehicleObj) (ds : List ℚ) : VehicleObj :=
  ds.foldl VehicleObj.drive obj

/- ### Vehicle.from_string (lines 192-195) -/

/-- The character the source splits on (`-`, code point 45). -/
def dashChar : Char :=
  Char.ofNat 45

/-- Splitting a character list on `dashChar`, as Python `str.split('-')` does:
`""` gives one empty field, adjacent dashes give empty fields. -/
def splitDashList : List Char → List (List Char)
  | [] => [[]]
  | c :: rest =>
    let r := splitDashList rest
    if c = dashChar then [] :: r
    else
      match r with
      | [] => [[c]]
      | h :: t => (c :: h) :: t

/-- Embedding of Python `string.split('-')`. -/
def py_split_dash (s : String) : List String :=
  (splitDashList s.toList).map (fun cs => String.mk cs)

/-- Stripping leading and trailing whitespace, as Python `int(str)` does
before parsing. -/
def py_strip (s : String) : String :=
  String.mk
    (((s.toList.dropWhile Char.isWhitespace).reverse.dropWhile
      Char.isWhitespace).reverse)

/-- The value of a list of decimal digit characters. -/
def digitsToNat (cs : List Char) : Nat :=
  cs.foldl (fun acc c => 10 * acc + (c.toNat - 48)) 0

/-- Parsing a non-empty all-digit character list; `none` otherwise. -/
def py_parse_digits (cs : List Char) : Option Nat :=
  if cs.isEmpty then none
  else if cs.all Char.isDigit then some (digitsToNat cs) else none

/-- Embedding of Python `int(str)` on a decimal string: strip surrounding
whitespace, allow one optional leading `+` (code 43) or `-` (code 45) sign,
then require a non-empty run of digits; any other input raises `ValueError`
(underscore digit separators are not modelled — no claim exercises them). -/
def py_int_parse (s : String) : Option Int :=
  match (py_strip s).toList with
  | [] => none
  | c :: rest =>
    if c.toNat = 45 then (py_parse_digits rest).map (fun n => -(n : Int))
    else if c.toNat = 43 then (py_parse_digits rest).map (fun n => (n : Int))
    else (py_parse_digits (c :: rest)).map (fun n => (n : Int))

/-- Embedding of the classmethod `Vehicle.from_string(string)` invoked on
`Vehicle`: `make, model, year = string.split('-')` (a `ValueError` unless the
split yields exactly three fields) then `return cls(make, model, int(year))`
(a `ValueError` unless the year field parses as an integer). -/
def Vehicle.from_string (string : String) : Except PyError Vehicle :=
  match py_split_dash string with
  | [make, model, year] =>
    match py_int_parse year with
    | some y => .ok (Vehicle.init make model y)
    | none => .error .valueError
  | _ => .error .valueError

/- ### print_vehicle_report (lines 225-227) -/

/-- Embedding of `print_vehicle_report(vehicles)`: call `get_info` on each
element in iteration order, collecting the emitted lines.  The elements are
duck-typed (any `α` with a `get_info` that may fail); the result is the list
of lines printed before any failure, paired with the error if one occurred —
a failing element stops the loop, so later elements are never invoked. -/
def print_vehicle_report {α ε : Type} (get_info : α → Except ε String) :
    List α → List String × Option ε
  | [] => ([], none)
  | v :: rest =>
    match get_info v with
    | .ok line =>
      let r := print_vehicle_report get_info rest
      (line :: r.1, r.2)
    | .error e => ([], some e)

/-- A total `get_info` for actual Vehicle-family objects (the real
`get_info` methods never raise). -/
def VehicleObj.get_info_exc (obj : VehicleObj) : Except PyError String :=
  .ok obj.get_info

/- ### Substring-in-order helper (for the claim about `get_info` content) -/

/-- Whether `pat` is a prefix of `cs`. -/
def listStartsWith : List Char → List Char → Bool
  | _, [] => true
  | [], _ :: _ => false
  | c :: cs, p :: ps => c = p && listStartsWith cs ps

/-- The suffix of `cs` after the first occurrence of `pat`, if `pat` occurs. -/
def dropAfterFirst (pat : List Char) : List Char → Option (List Char)
  | [] => if pat.isEmpty then some [] else none
  | c :: rest =>
    if listStartsWith (c :: rest) pat then some ((c :: rest).drop pat.length)
    else dropAfterFirst pat rest

/-- Whether the given parts occur as substrings, in order, left to right. -/
def containsInOrderAux : List Char → List String → Bool
  | _, [] => true
  | cs, p :: ps =>
    match dropAfterFirst p.toList cs with
    | some rest => containsInOrderAux rest ps
    | none => false

/-- Whether the string `s` contains all of `parts` as substrings appearing in
the given order. -/
def strContainsInOrder (s : String) (parts : List String) : Bool :=
  containsInOrderAux s.toList parts

/- ### Helper lemmas -/

/-- One `drive` call never decreases the base `_mileage` attribute. -/
theorem Vehicle.mileage_le_drive_base (v : Vehicle) (d : ℚ) :
    v._mileage ≤ (v.drive d)._mileage := by
  unfold Vehicle.drive
  split
  · simpa using le_of_lt (by linarith)
  · exact le_refl _

/-- One dispatched `drive` call never decreases the mileage. -/
theorem VehicleObj.mileage_le_drive (obj : VehicleObj) (d : ℚ) :
    obj.mileage ≤ (obj.drive d).mileage := by
  cases obj with
  | base v => exact Vehicle.mileage_le_drive_base v d
  | car c =>
    simpa [VehicleObj.drive, VehicleObj.mileage, Car.drive]
      using Vehicle.mileage_le_drive_base c.toVehicle d
  | scooter e =>
    simpa [VehicleObj.drive, VehicleObj.mileage, ElectricScooter.drive]
      using Vehicle.mileage_le_drive_base e.toVehicle d

/-- A whole sequence of `drive` calls never decreases the mileage. -/
theorem VehicleObj.mileage_le_drives (obj : VehicleObj) (ds : List ℚ) :
    obj.mileage ≤ (drives obj ds).mileage := by
  induction ds generalizing obj with
  | nil => exact le_refl _
  | cons d rest ih =>
    exact le_trans (VehicleObj.mileage_le_drive obj d) (ih (obj.drive d))

/-- The clamped battery update equals a `max` with zero. -/
theorem ite_neg_zero_eq_max (b : ℚ) : (if b < 0 then 0 else b) = max 0 b := by
  rcases lt_or_le b 0 with h | h
  · simp [h, max_eq_left (le_of_lt h)]
  · simp [not_lt.mpr h, max_eq_right h]

/- ### Claim theorems -/

/-- C1: `from_description` dispatches to the invoking variant: invoked through
`Shape` it builds a base `Shape`, invoked through `Circle` it builds a
`Circle` (not a `Shape`), in both cases with name equal to the input
uppercased; concretely `Shape.from_description("hexagon")` has name
`"HEXAGON"` and `Circle.from_description("donut")` is a Circle named
`"DONUT"`. -/
theorem C1_from_description_dispatch :
    (∀ s : String,
      from_description .shape s = ShapeObj.shape (py_upper s) ∧
      from_description .circle s = ShapeObj.circle (py_upper s) ∧
      (from_description .shape s).name = py_upper s ∧
      (from_description .circle s).name = py_upper s ∧
      (from_description .circle s).isCircleInstance = true ∧
      (from_description .shape s).isCircleInstance = false) ∧
    (from_description .shape "hexagon").name = "HEXAGON" ∧
    from_description .circle "donut" = ShapeObj.circle "DONUT" :=
  ⟨fun _ => ⟨rfl, rfl, rfl, rfl, rfl, rfl⟩, rfl, rfl⟩

/-- C2 (counterexample): the claim "for every vehicle variant and every
distance ≤ 0 drive is a no-op leaving the entire state unchanged" fails on
`ElectricScooter`: driving a scooter with battery 85 a distance of -10 changes
its battery to 86, because the battery update is not guarded by
`distance > 0`. -/
theorem C2_counterexample_scooter_drive_negative :
    (ElectricScooter.init "Xiaomi" "M365" 2022 85).drive (-10)
      ≠ ElectricScooter.init "Xiaomi" "M365" 2022 85 := by
  intro h
  have h2 := congrArg ElectricScooter.battery_percentage h
  simp [ElectricScooter.drive, ElectricScooter.init, Vehicle.drive] at h2
  norm_num at h2

/-- C2 (amended): for `Vehicle` and `Car`, `drive(distance)` with
distance ≤ 0 is a silent no-op leaving the object unchanged; for
`ElectricScooter` it leaves the inherited state (including mileage) unchanged
but still updates the battery to max(0, battery - distance·0.1), which
increases the battery when distance < 0 and is unchanged only at
distance = 0. -/
theorem C2_amended_drive_nonpositive (d : ℚ) (hd : d ≤ 0) :
    (∀ v : Vehicle, v.drive d = v) ∧
    (∀ c : Car, c.drive d = c) ∧
    (∀ e : ElectricScooter,
      (e.drive d).toVehicle = e.toVehicle ∧
      (e.drive d).battery_percentage
        = max 0 (e.battery_percentage - d * (1 / 10))) := by
  have hbase : ∀ v : Vehicle, v.drive d = v := by
    intro v
    unfold Vehicle.drive
    rw [if_neg (not_lt.mpr hd)]
  refine ⟨hbase, fun c => ?_, fun e => ⟨?_, ?_⟩⟩
  · show { c with toVehicle := c.toVehicle.drive d } = c
    rw [hbase c.toVehicle]
  · have h : (e.drive d).toVehicle = e.toVehicle.drive d := rfl
    rw [h, hbase]
  · show (if e.battery_percentage - d * (1 / 10) < 0 then 0
        else e.battery_percentage - d * (1 / 10))
      = max 0 (e.battery_percentage - d * (1 / 10))
    exact ite_neg_zero_eq_max _

/-- C2 (witness): the amended statement evaluated at distance -10 on a
scooter with battery 85: the battery becomes max(0, 85 + 1) = 86. -/
theorem C2_amended_witness :
    (-10 : ℚ) ≤ 0 ∧
    ((ElectricScooter.init "Xiaomi" "M365" 2022 85).drive (-10)).battery_percentage
      = max 0 ((ElectricScooter.init "Xiaomi" "M365" 2022 85).battery_percentage
          - (-10) * (1 / 10)) :=
  ⟨by norm_num,
   ((C2_amended_drive_nonpositive (-10) (by norm_num)).2.2
     (ElectricScooter.init "Xiaomi" "M365" 2022 85)).2⟩

/-- C3: after `ElectricScooter.drive(distance)` for any distance, the battery
equals max(0, previous_battery - distance·0.1), and in particular it is never
negative. -/
theorem C3_scooter_battery_clamped (e : ElectricScooter) (d : ℚ) :
    (e.drive d).battery_percentage
      = max 0 (e.battery_percentage - d * (1 / 10)) ∧
    0 ≤ (e.drive d).battery_percentage := by
  have h : (e.drive d).battery_percentage
      = max 0 (e.battery_percentage - d * (1 / 10)) := by
    show (if e.battery_percentage - d * (1 / 10) < 0 then 0
        else e.battery_percentage - d * (1 / 10))
      = max 0 (e.battery_percentage - d * (1 / 10))
    exact ite_neg_zero_eq_max _
  exact ⟨h, h ▸ le_max_left 0 _⟩

/-- C4: `deposit(amount)` increases the balance by exactly `amount` when
amount > 0, leaves the account unchanged (with no error) when amount ≤ 0, and
`get_balance()` returns the current balance. -/
theorem C4_deposit_balance (a : BankAccount) (amount : ℚ) :
    (0 < amount →
      (a.deposit amount).get_balance = a.get_balance + amount) ∧
    (amount ≤ 0 → a.deposit amount = a) ∧
    a.get_balance = a.__balance := by
  refine ⟨fun h => ?_, fun h => ?_, rfl⟩
  · simp [BankAccount.deposit, BankAccount.get_balance, h]
  · simp [BankAccount.deposit, not_lt.mpr h]

/-- C4 (witness): depositing 500 into an account holding 1000 yields balance
1500; depositing -5 leaves the account unchanged. -/
theorem C4_deposit_witness :
    (0 : ℚ) < 500 ∧
    ((BankAccount.mk "Alice" 1000).deposit 500).get_balance
      = (BankAccount.mk "Alice" 1000).get_balance + 500 ∧
    (-5 : ℚ) ≤ 0 ∧
    (BankAccount.mk "Alice" 1000).deposit (-5) = BankAccount.mk "Alice" 1000 :=
  ⟨by norm_num,
   (C4_deposit_balance (BankAccount.mk "Alice" 1000) 500).1 (by norm_num),
   by norm_num,
   (C4_deposit_balance (BankAccount.mk "Alice" 1000) (-5)).2.1 (by norm_num)⟩

/-- C5: `Vehicle.from_string` on an input splitting into exactly three
dash-separated fields with an integer-parsable last field yields a vehicle
with that make, model, integer year, and mileage 0; every other input raises
`ValueError`; concretely "Honda-Civic-2018" parses and "OnlyOneField" does
not. -/
theorem C5_from_string_parse :
    (∀ (s mk md yr : String) (y : Int),
      py_split_dash s = [mk, md, yr] →
      py_int_parse yr = some y →
      Vehicle.from_string s
        = .ok { make := mk, model := md, year := y, _mileage := 0 }) ∧
    (∀ s : String, (py_split_dash s).length ≠ 3 →
      Vehicle.from_string s = .error .valueError) ∧
    (∀ (s mk md yr : String),
      py_split_dash s = [mk, md, yr] →
      py_int_parse yr = none →
      Vehicle.from_string s = .error .valueError) ∧
    Vehicle.from_string "Honda-Civic-2018"
      = .ok { make := "Honda", model := "Civic", year := 2018, _mileage := 0 } ∧
    Vehicle.from_string "OnlyOneField" = .error .valueError := by
  refine ⟨?_, ?_, ?_, rfl, rfl⟩
  · intro s mk md yr y hs hy
    simp [Vehicle.from_string, hs, hy, Vehicle.init]
  · intro s hs
    unfold Vehicle.from_string
    rcases h : py_split_dash s with _ | ⟨a, _ | ⟨b, _ | ⟨c, _ | ⟨e, t⟩⟩⟩⟩ <;>
      first
        | rfl
        | (rw [h] at hs; simp at hs)
  · intro s mk md yr hs hy
    simp [Vehicle.from_string, hs, hy]

/-- C5 (witness): the success branch evaluated at "Honda-Civic-2018". -/
theorem C5_from_string_witness :
    py_split_dash "Honda-Civic-2018" = ["Honda", "Civic", "2018"] ∧
    py_int_parse "2018" = some 2018 ∧
    Vehicle.from_string "Honda-Civic-2018"
      = .ok { make := "Honda", model := "Civic", year := 2018, _mileage := 0 } :=
  ⟨rfl, rfl,
   C5_from_string_parse.1 "Honda-Civic-2018" "Honda" "Civic" "2018" 2018 rfl rfl⟩

/-- C6: every variant's `drive` with a positive distance increases the mileage
by exactly that distance; over any sequence of drive calls the mileage is
monotonically non-decreasing; and starting from any freshly constructed
vehicle, car, or scooter (mileage 0) the mileage is never negative. -/
theorem C6_mileage_monotone :
    (∀ (obj : VehicleObj) (d : ℚ), 0 < d →
      (obj.drive d).mileage = obj.mileage + d) ∧
    (∀ (obj : VehicleObj) (ds : List ℚ),
      obj.mileage ≤ (drives obj ds).mileage) ∧
    (∀ (obj : VehicleObj) (ds : List ℚ), 0 ≤ obj.mileage →
      0 ≤ (drives obj ds).mileage) ∧
    (∀ (mk md : String) (y : Int) (ds : List ℚ),
      0 ≤ (drives (.base (Vehicle.init mk md y)) ds).mileage) ∧
    (∀ (mk md : String) (y : Int) (f : ℚ) (ds : List ℚ),
      0 ≤ (drives (.car (Car.init mk md y f)) ds).mileage) ∧
    (∀ (mk md : String) (y : Int) (b : ℚ) (ds : List ℚ),
      0 ≤ (drives (.scooter (ElectricScooter.init mk md y b)) ds).mileage) := by
  have hstep : ∀ (obj : VehicleObj) (d : ℚ), 0 < d →
      (obj.drive d).mileage = obj.mileage + d := by
    intro obj d hd
    have hb : ∀ v : Vehicle, (v.drive d)._mileage = v._mileage + d := by
      intro v
      unfold Vehicle.drive
      rw [if_pos hd]
    cases obj with
    | base v => exact hb v
    | car c => exact hb c.toVehicle
    | scooter e => exact hb e.toVehicle
  have hnn : ∀ (obj : VehicleObj) (ds : List ℚ), 0 ≤ obj.mileage →
      0 ≤ (drives obj ds).mileage := by
    intro obj ds h
    exact le_trans h (VehicleObj.mileage_le_drives obj ds)
  exact ⟨hstep, VehicleObj.mileage_le_drives, hnn,
    fun mk md y ds => hnn _ ds (le_refl 0),
    fun mk md y f ds => hnn _ ds (le_refl 0),
    fun mk md y b ds => hnn _ ds (le_refl 0)⟩

/-- C6 (witness): evaluated on a fresh base vehicle: a drive of 100 takes the
mileage from 0 to 0 + 100, and a drive sequence [100, -3] keeps it
non-negative. -/
theorem C6_mileage_witness :
    (0 : ℚ) < 100 ∧
    ((VehicleObj.base (Vehicle.init "Honda" "Civic" 2018)).drive 100).mileage
      = (VehicleObj.base (Vehicle.init "Honda" "Civic" 2018)).mileage + 100 ∧
    0 ≤ (VehicleObj.base (Vehicle.init "Honda" "Civic" 2018)).mileage ∧
    0 ≤ (drives (VehicleObj.base (Vehicle.init "Honda" "Civic" 2018))
          [100, -3]).mileage :=
  ⟨by norm_num,
   C6_mileage_monotone.1 (.base (Vehicle.init "Honda" "Civic" 2018)) 100
     (by norm_num),
   le_refl 0,
   C6_mileage_monotone.2.2.1 (.base (Vehicle.init "Honda" "Civic" 2018))
     [100, -3] (le_refl 0)⟩

/-- C7: the end-to-end scenario: Car("Toyota","Corolla",2020,50) driven 100
renders exactly "2020 Toyota Corolla, Mileage: 100, Fuel Capacity: 50", which
contains year, make, model, mileage and fuel capacity in that order; and every
Car's rendering extends the base Vehicle rendering rather than replacing
it. -/
theorem C7_car_get_info_end_to_end :
    ((Car.init "Toyota" "Corolla" 2020 50).drive 100).get_info
      = "2020 Toyota Corolla, Mileage: 100, Fuel Capacity: 50" ∧
    strContainsInOrder
      (((Car.init "Toyota" "Corolla" 2020 50).drive 100).get_info)
      ["2020", "Toyota", "Corolla", "100", "50"] = true ∧
    (∀ c : Car, c.get_info
      = c.toVehicle.get_info ++ ", Fuel Capacity: "
          ++ py_show_num c.fuel_capacity) := by
  have h1 : ((Car.init "Toyota" "Corolla" 2020 50).drive 100).get_info
      = "2020 Toyota Corolla, Mileage: 100, Fuel Capacity: 50" := by
    norm_num [Car.init, Vehicle.init, Car.drive, Vehicle.drive, Car.get_info,
      Vehicle.get_info, py_show_num, py_show_int]
    decide
  refine ⟨h1, ?_, fun c => rfl⟩
  rw [h1]
  rfl

/-- C8: the claim says `is_charging_required()` returns True exactly when the
battery is below 20; the code cannot do this: being a parameterless static
method whose body reads `self.battery_percentage`, every call raises
`NameError` and never returns the specified comparison for any battery
value. -/
theorem C8_is_charging_required_code_bug :
    ElectricScooter.is_charging_required = .error .nameError ∧
    ∀ battery : ℚ,
      ElectricScooter.is_charging_required
        ≠ .ok (is_charging_required_spec battery) :=
  ⟨rfl, fun _ h => Except.noConfusion h⟩

/-- C9: `print_vehicle_report` invokes `get_info` on each element and emits
the results in the list's iteration order; when all calls succeed the output
is exactly the per-element results in order with no error, and when the first
failure occurs the lines before it have been emitted, its error propagates,
and no later element is processed (the result does not depend on the elements
after the failing one). -/
theorem C9_print_vehicle_report_order {α ε : Type}
    (g : α → Except ε String) :
    (∀ (vs : List α) (lines : List String),
      vs.map g = lines.map Except.ok →
      print_vehicle_report g vs = (lines, none)) ∧
    (∀ (pre : List α) (lines : List String) (bad : α) (e : ε) (post : List α),
      pre.map g = lines.map Except.ok →
      g bad = .error e →
      print_vehicle_report g (pre ++ bad :: post) = (lines, some e)) := by
  constructor
  · intro vs
    induction vs with
    | nil =>
      intro lines h
      cases lines with
      | nil => rfl
      | cons l ls => simp at h
    | cons v rest ih =>
      intro lines h
      cases lines with
      | nil => simp at h
      | cons l ls =>
        simp only [List.map_cons, List.cons.injEq] at h
        simp [print_vehicle_report, h.1, ih ls h.2]
  · intro pre
    induction pre with
    | nil =>
      intro lines bad e post h hbad
      cases lines with
      | nil => simp [print_vehicle_report, hbad]
      | cons l ls => simp at h
    | cons v rest ih =>
      intro lines bad e post h hbad
      cases lines with
      | nil => simp at h
      | cons l ls =>
        simp only [List.map_cons, List.cons.injEq] at h
        simp [print_vehicle_report, h.1, ih ls bad e post h.2 hbad]

/-- C9 (witness): evaluated on a concrete duck-typed list: all-success emits
every line in order; a failure at the second element emits the first line,
returns its error, and ignores the rest of the list. -/
theorem C9_print_vehicle_report_witness :
    print_vehicle_report
        (fun n : Nat => if n = 0 then Except.ok "zero" else Except.error 7)
        [0, 0] = (["zero", "zero"], none) ∧
    print_vehicle_report
        (fun n : Nat => if n = 0 then Except.ok "zero" else Except.error 7)
        [0, 1, 5] = (["zero"], some 7) :=
  ⟨(C9_print_vehicle_report_order
      (fun n : Nat => if n = 0 then Except.ok "zero" else Except.error 7)).1
      [0, 0] ["zero", "zero"] rfl,
   (C9_print_vehicle_report_order
      (fun n : Nat => if n = 0 then Except.ok "zero" else Except.error 7)).2
      [0] ["zero"] 1 7 [5] rfl rfl⟩

/-- C10: `str()` on any Vehicle-family object in any state returns exactly the
same string as its `get_info()`: the base `__str__` body delegates to the
dynamically dispatched `get_info`, so Car states include the fuel-capacity
extension and ElectricScooter states include the battery extension. -/
theorem C10_str_equals_get_info :
    (∀ obj : VehicleObj, obj.str = obj.get_info) ∧
    (∀ v : Vehicle, (VehicleObj.base v).str = v.get_info) ∧
    (∀ c : Car, (VehicleObj.car c).str
      = c.toVehicle.get_info ++ ", Fuel Capacity: "
          ++ py_show_num c.fuel_capacity) ∧
    (∀ e : ElectricScooter, (VehicleObj.scooter e).str
      = e.toVehicle.get_info ++ ", Battery: "
          ++ py_show_num e.battery_percentage ++ "%") :=
  ⟨fun _ => rfl, fun _ => rfl, fun _ => rfl, fun _ => rfl⟩
